import Mathlib

/-!
Shallow embedding of the agentic-auditor core (src/orchestrator/main.py and
src/worker/worker.py): the job submission gate, the three-lane Redis-backed
priority dispatch queue, the worker pull loop with scanner dispatch, the
findings/marker writes, and the query endpoints, together with theorems
checking the specification's claims against these definitions.

Conventions:
- Python strings are Lean `String`; `Optional[str]` is `Option String`
  (Python truthiness of an optional string is `truthy` below: `None` and
  `""` are both falsy).
- Redis `lpush` prepends to a Lean list; `lpop` takes its head.  A lane is
  therefore a `List Task` whose head is the Redis list's index 0.
- PostgreSQL tables are insertion-ordered Lean lists of rows.
- Exceptions raised by the HTTP handlers become `Except HttpError`.
- Environmental effects (uuid generation, clocks, the cloud scanner call)
  are parameters of the embedded functions.
-/

namespace Auditor

/-- Python truthiness of an `Optional[str]`: `None` and `""` are falsy. -/
def truthy : Option String → Bool
  | none => false
  | some s => !(s == "")

/-- The request body of POST /audit (orchestrator/main.py, `AuditRequest`),
after pydantic parsing has filled the defaults.  The regex constraints of
the pydantic fields are `pydanticValid` below. -/
structure AuditRequest where
  cloud_provider : String
  subscription_id : Option String := none
  account_id : Option String := none
  project_id : Option String := none
  checks : List String := ["security", "compliance"]
  priority : String := "medium"
deriving Repr, DecidableEq

/-- The pydantic field regexes: cloud_provider matches `^(azure|aws|gcp)$`
and priority matches `^(low|medium|high)$`.  A request failing these is
rejected by FastAPI before the handler runs. -/
def pydanticValid (r : AuditRequest) : Bool :=
  (r.cloud_provider == "azure" || r.cloud_provider == "aws"
      || r.cloud_provider == "gcp")
    && (r.priority == "low" || r.priority == "medium" || r.priority == "high")

/-- A task envelope as built in `create_audit` and pushed onto
`audit_queue_{priority}` (orchestrator/main.py lines 183-194). -/
structure Task where
  job_id : String
  cloud_provider : String
  subscription_id : Option String
  account_id : Option String
  project_id : Option String
  check_type : String
  priority : String
deriving Repr, DecidableEq

/-- A row of the `audit_jobs` PostgreSQL table, the fields this core reads
and writes. -/
structure JobRow where
  job_id : String
  cloud_provider : String
  subscription_id : Option String
  account_id : Option String
  project_id : Option String
  checks : List String
  status : String
  error_message : Option String := none
deriving Repr, DecidableEq

/-- A row of the `audit_findings` PostgreSQL table (read by
`get_job_findings` and the `findings_count` of `get_job_status`). -/
structure PgFinding where
  id : Nat
  job_id : String
  resource_id : String
  resource_type : String
  check_type : String
  severity : String
  description : String
  recommendation : String
  created_at : Nat
deriving Repr, DecidableEq

/-- A finding dict as produced by the worker's scanner methods
(worker/worker.py `process_task` / `audit_azure` / `audit_aws` /
`audit_gcp`), before the worker tags it. -/
structure Finding where
  resource_id : String
  resource_type : String
  check_type : String
  severity : String
  description : String
  recommendation : String
deriving Repr, DecidableEq

/-- A finding after the worker loop has tagged it with job id, worker id and
processing timestamp and lpushed it onto the Redis list
`findings:{job_id}` (worker/worker.py lines 308-318). -/
structure StoredFinding where
  finding : Finding
  job_id : String
  worker_id : String
  processed_at : Nat
deriving Repr, DecidableEq

/-- The three Redis lanes `audit_queue_high` / `audit_queue_medium` /
`audit_queue_low`.  Head of each list = Redis index 0. -/
structure Queues where
  high : List Task := []
  medium : List Task := []
  low : List Task := []
deriving Repr, DecidableEq

/-- Redis `lpush` on the lane named `audit_queue_{p}`: prepend to the list.
An unknown lane name leaves the queues unchanged (unreachable under
`pydanticValid`). -/
def pushLane (q : Queues) (p : String) (t : Task) : Queues :=
  if p == "high" then { q with high := t :: q.high }
  else if p == "medium" then { q with medium := t :: q.medium }
  else if p == "low" then { q with low := t :: q.low }
  else q

/-- The contents of the lane named `p` (Redis `lrange 0 -1`). -/
def laneOf (q : Queues) (p : String) : List Task :=
  if p == "high" then q.high
  else if p == "medium" then q.medium
  else if p == "low" then q.low
  else []

/-- `llen` of the lane named `p`. -/
def laneLen (q : Queues) (p : String) : Nat := (laneOf q p).length

/-- All tasks currently sitting in any lane. -/
def allTasks (q : Queues) : List Task := q.high ++ q.medium ++ q.low

/-- The worker's claim attempt (worker/worker.py lines 294-298): one pass of
`for priority in ['high', 'medium', 'low']` doing a non-blocking `lpop` on
each lane and stopping at the first lane that yields a task.  Returns the
claimed task and the remaining queues, or `none` when every lane was
empty. -/
def claim (q : Queues) : Option (Task × Queues) :=
  match q.high with
  | t :: rest => some (t, { q with high := rest })
  | [] =>
    match q.medium with
    | t :: rest => some (t, { q with medium := rest })
    | [] =>
      match q.low with
      | t :: rest => some (t, { q with low := rest })
      | [] => none

/-- The whole shared state: the two PostgreSQL tables and the Redis keys the
core touches. -/
structure SysState where
  jobs : List JobRow := []
  pgFindings : List PgFinding := []
  queues : Queues := {}
  redisFindings : List StoredFinding := []
  processed : List (String × String) := []
  workerMetrics : List (String × Nat) := []
deriving Repr, DecidableEq

/-- An HTTP error as raised by `HTTPException(status_code, detail)`. -/
structure HttpError where
  status_code : Nat
  detail : String
deriving Repr, DecidableEq

/-- The response model of POST /audit (`AuditJobResponse`). -/
structure AuditJobResponse where
  job_id : String
  status : String
  message : String
  queue_position : Option Nat := none
deriving Repr, DecidableEq

/-- `UPDATE audit_jobs SET status = $s WHERE job_id = $jid`. -/
def setJobStatus (jobs : List JobRow) (jid : String) (s : String) :
    List JobRow :=
  jobs.map (fun j => if j.job_id == jid then { j with status := s } else j)

/-- `SELECT status FROM audit_jobs WHERE job_id = $jid` (first row). -/
def jobStatus (st : SysState) (jid : String) : Option String :=
  (st.jobs.find? (fun j => j.job_id == jid)).map JobRow.status

/-- The task envelope built for one check of a request
(orchestrator/main.py lines 184-194). -/
def mkTask (jid : String) (r : AuditRequest) (check : String) : Task :=
  { job_id := jid
    cloud_provider := r.cloud_provider
    subscription_id := r.subscription_id
    account_id := r.account_id
    project_id := r.project_id
    check_type := check
    priority := r.priority }

/-- The `audit_jobs` row inserted by `create_audit` (orchestrator/main.py
lines 170-177), with status `'pending'`. -/
def jobRowOf (jid : String) (r : AuditRequest) : JobRow :=
  { job_id := jid
    cloud_provider := r.cloud_provider
    subscription_id := r.subscription_id
    account_id := r.account_id
    project_id := r.project_id
    checks := r.checks
    status := "pending" }

/-- POST /audit (`create_audit`, orchestrator/main.py lines 155-230).
`jid` stands for the generated `audit_{uuid4().hex[:8]}`.  The function
returns the HTTP outcome paired with the state after the call; on an error
raised before any write, the state is returned unchanged, exactly as the
handler raises before touching the store.  Store/queue connectivity
failures (the 500/503 paths) are environmental and not modelled. -/
def create_audit (jid : String) (r : AuditRequest) (st : SysState) :
    Except HttpError AuditJobResponse × SysState :=
  if !(pydanticValid r) then
    (.error ⟨422, "validation error"⟩, st)
  else if r.cloud_provider == "azure" && !(truthy r.subscription_id) then
    (.error ⟨400, "subscription_id required for Azure"⟩, st)
  else if r.cloud_provider == "aws" && !(truthy r.account_id) then
    (.error ⟨400, "account_id required for AWS"⟩, st)
  else if r.cloud_provider == "gcp" && !(truthy r.project_id) then
    (.error ⟨400, "project_id required for GCP"⟩, st)
  else
    let row : JobRow := jobRowOf jid r
    let tasks := r.checks.map (mkTask jid r)
    let queues1 := tasks.foldl (fun q t => pushLane q r.priority t) st.queues
    let qlen := laneLen queues1 r.priority
    let jobs1 := setJobStatus (st.jobs ++ [row]) jid "queued"
    (.ok { job_id := jid
           status := "queued"
           message := "Audit job created with "
             ++ toString tasks.length ++ " tasks"
           queue_position := some qlen },
     { st with jobs := jobs1, queues := queues1 })

/-- The background coroutine `process_audit_tasks` scheduled by
`create_audit` (orchestrator/main.py lines 232-242): each iteration of its
loop sleeps and does nothing (`pass`), so one iteration is the identity on
the shared state. -/
def process_audit_tasks_iter (st : SysState) : SysState := st

/-- The synthetic failure finding built by the `except` branch of
`process_task` (worker/worker.py lines 100-111) when the scanner call
raises `e`. -/
def syntheticFinding (t : Task) (e : String) : Finding :=
  { resource_id := "system"
    resource_type := "audit_task"
    check_type := t.check_type
    severity := "high"
    description := "Audit failed: " ++ e
    recommendation := "Check worker logs and cloud permissions" }

/-- `process_task` (worker/worker.py lines 76-111).  The provider-specific
scanner invocation (`initialize_cloud_clients` + `audit_azure` /
`audit_aws` / `audit_gcp`) is the parameter `scan`; any exception it raises
is the `Except.error` case, converted into the single synthetic
high-severity finding.  The unsupported-provider branch returns `[]`. -/
def process_task (scan : Task → Except String (List Finding)) (t : Task) :
    List Finding :=
  if t.cloud_provider == "azure" || t.cloud_provider == "aws"
      || t.cloud_provider == "gcp" then
    match scan t with
    | .ok fs => fs
    | .error e => [syntheticFinding t e]
  else []

/-- `hincrby worker_metrics wid 1`. -/
def bumpMetric (m : List (String × Nat)) (wid : String) :
    List (String × Nat) :=
  match m.find? (fun p => p.1 == wid) with
  | some _ => m.map (fun p => if p.1 == wid then (p.1, p.2 + 1) else p)
  | none => (wid, 1) :: m

/-- One iteration of the worker pull loop (`AuditWorker.run`,
worker/worker.py lines 290-332) in which a task is looked for: claim a task
scanning lanes high → medium → low; if one was claimed, run `process_task`,
tag and lpush every finding onto `findings:{job_id}`, set the processed
marker for (job id, check type), and bump the worker's metric counter.  If
every lane was empty the iteration changes nothing (the worker sleeps).
`now` is the `datetime.utcnow()` tag.  Note the loop consults no processed
marker before processing. -/
def workerStep (scan : Task → Except String (List Finding))
    (wid : String) (now : Nat) (st : SysState) : SysState :=
  match claim st.queues with
  | none => st
  | some (t, q') =>
    let fs := process_task scan t
    let stored := fs.map (fun f =>
      { finding := f, job_id := t.job_id, worker_id := wid
        processed_at := now : StoredFinding })
    { st with
      queues := q'
      redisFindings := stored.reverse ++ st.redisFindings
      processed := (t.job_id, t.check_type) :: st.processed
      workerMetrics := bumpMetric st.workerMetrics wid }

/-- Insert one row into a list sorted by `created_at` descending. -/
def insertByCreatedDesc (f : PgFinding) : List PgFinding → List PgFinding
  | [] => [f]
  | g :: rest =>
    if g.created_at ≤ f.created_at then f :: g :: rest
    else g :: insertByCreatedDesc f rest

/-- `ORDER BY created_at DESC`. -/
def sortByCreatedDesc : List PgFinding → List PgFinding
  | [] => []
  | f :: rest => insertByCreatedDesc f (sortByCreatedDesc rest)

/-- GET /jobs/{job_id}/findings (`get_job_findings`, orchestrator/main.py
lines 277-322): verify the job exists in `audit_jobs`, then select from the
PostgreSQL `audit_findings` table, optionally filtered by severity, ordered
by `created_at` descending. -/
def get_job_findings (st : SysState) (jid : String)
    (severity : Option String) : Except HttpError (List PgFinding) :=
  if st.jobs.any (fun j => j.job_id == jid) then
    let rows : List PgFinding :=
      st.pgFindings.filter (fun f => f.job_id == jid)
    let rows2 : List PgFinding := match severity with
      | some s => rows.filter (fun f => f.severity == s)
      | none => rows
    .ok (sortByCreatedDesc rows2)
  else .error ⟨404, "Job not found"⟩

/-- The Redis findings list `findings:{jid}` as the worker wrote it. -/
def redisFindingsOf (st : SysState) (jid : String) : List StoredFinding :=
  st.redisFindings.filter (fun f => f.job_id == jid)

/-- The provider-specific identifier checks of `create_audit` (lines
161-167) all pass. -/
def idOk (r : AuditRequest) : Bool :=
  !(r.cloud_provider == "azure" && !(truthy r.subscription_id))
    && !(r.cloud_provider == "aws" && !(truthy r.account_id))
    && !(r.cloud_provider == "gcp" && !(truthy r.project_id))

/-- One worker-loop iteration together with its environment: the scanner
outcome, the worker id and the wall clock. -/
structure WStep where
  scan : Task → Except String (List Finding)
  wid : String
  now : Nat

/-- Run a sequence of worker-loop iterations (possibly from different
workers — their iterations interleave arbitrarily, each `lpop` and each
write being individually atomic in Redis). -/
def runWorker : List WStep → SysState → SysState
  | [], st => st
  | s :: rest, st => runWorker rest (workerStep s.scan s.wid s.now st)

/-- An atomic queue operation, for reasoning about concurrent access to the
dispatch lanes alone: an `lpush` by the submission gate or a claim attempt
by the worker named `wid`. -/
inductive QOp where
  | enq (p : String) (t : Task)
  | claimOp (wid : String)

/-- Interleaved execution of atomic queue operations.  Returns the final
queues and the list of (worker id, task) deliveries, in order.  A claim on
all-empty lanes delivers nothing (the worker sleeps). -/
def runOps : Queues → List QOp → Queues × List (String × Task)
  | q, [] => (q, [])
  | q, .enq p t :: rest => runOps (pushLane q p t) rest
  | q, .claimOp w :: rest =>
    match claim q with
    | none => runOps q rest
    | some (t, q') =>
      ((runOps q' rest).1, (w, t) :: (runOps q' rest).2)

/-- The tasks enqueued by a sequence of queue operations. -/
def enqueuedOf : List QOp → List Task
  | [] => []
  | .enq _ t :: rest => t :: enqueuedOf rest
  | .claimOp _ :: rest => enqueuedOf rest

/-- Every enqueue in the operation sequence targets a real lane (as every
enqueue issued by `create_audit` does, by the pydantic priority regex). -/
def opsValid : List QOp → Prop
  | [] => True
  | .enq p _ :: rest =>
    (p = "high" ∨ p = "medium" ∨ p = "low") ∧ opsValid rest
  | .claimOp _ :: rest => opsValid rest

/-- Multiplicity of a task among all lanes. -/
def qCount (x : Task) (q : Queues) : Nat :=
  q.high.count x + q.medium.count x + q.low.count x

/-! Concrete scenario used by several checks: Scenario A of the spec,
`{provider: azure, subscription_id: "sub-1", checks: ["security",
"compliance"], priority: "high"}`, submitted to an empty system. -/

def scenarioReq : AuditRequest :=
  { cloud_provider := "azure"
    subscription_id := some "sub-1"
    checks := ["security", "compliance"]
    priority := "high" }

def scenarioState : SysState := (create_audit "audit_0a1b2c3d" scenarioReq {}).2

/-- A sample finding, standing for a scanner result. -/
def sampleFinding (c : String) : Finding :=
  { resource_id := "sub-1"
    resource_type := "subscription"
    check_type := c
    severity := "low"
    description := "No resource groups found in subscription"
    recommendation := "This might be a new subscription" }

/-- A scanner that succeeds with one finding per task. -/
def sampleScan : Task → Except String (List Finding) :=
  fun t => .ok [sampleFinding t.check_type]

/-- A sample task used to instantiate queue-level statements. -/
def sampleTask (c : String) : Task :=
  mkTask "audit_0a1b2c3d" scenarioReq c

/-! Helper lemmas about the lanes. -/

lemma laneOf_pushLane_same (q : Queues) (p : String) (t : Task)
    (hp : p = "high" ∨ p = "medium" ∨ p = "low") :
    laneOf (pushLane q p t) p = t :: laneOf q p := by
  rcases hp with h | h | h <;> subst h <;> rfl

lemma laneOf_pushLane_other (q : Queues) (p p' : String) (t : Task)
    (hp : p = "high" ∨ p = "medium" ∨ p = "low")
    (hp' : p' = "high" ∨ p' = "medium" ∨ p' = "low")
    (hne : p' ≠ p) :
    laneOf (pushLane q p t) p' = laneOf q p' := by
  rcases hp with h | h | h <;> rcases hp' with h' | h' | h' <;>
    subst h <;> subst h' <;> first
    | exact absurd rfl hne
    | rfl

lemma laneOf_foldl_pushLane_same (ts : List Task) (q : Queues) (p : String)
    (hp : p = "high" ∨ p = "medium" ∨ p = "low") :
    laneOf (ts.foldl (fun q t => pushLane q p t) q) p
      = ts.reverse ++ laneOf q p := by
  induction ts generalizing q with
  | nil => rfl
  | cons t ts ih =>
    rw [List.foldl_cons, ih (pushLane q p t),
      laneOf_pushLane_same q p t hp, List.reverse_cons, List.append_assoc]
    rfl

lemma laneOf_foldl_pushLane_other (ts : List Task) (q : Queues)
    (p p' : String)
    (hp : p = "high" ∨ p = "medium" ∨ p = "low")
    (hp' : p' = "high" ∨ p' = "medium" ∨ p' = "low")
    (hne : p' ≠ p) :
    laneOf (ts.foldl (fun q t => pushLane q p t) q) p' = laneOf q p' := by
  induction ts generalizing q with
  | nil => rfl
  | cons t ts ih =>
    rw [List.foldl_cons, ih (pushLane q p t),
      laneOf_pushLane_other q p p' t hp hp' hne]

lemma idOk_split (r : AuditRequest) (hid : idOk r = true) :
    (r.cloud_provider == "azure" && !(truthy r.subscription_id)) = false
    ∧ (r.cloud_provider == "aws" && !(truthy r.account_id)) = false
    ∧ (r.cloud_provider == "gcp" && !(truthy r.project_id)) = false := by
  simp only [idOk, Bool.and_eq_true, Bool.not_eq_true'] at hid
  exact ⟨hid.1.1, hid.1.2, hid.2⟩

/-- Full unfolding of the success path of `create_audit`. -/
lemma create_audit_eq_ok (jid : String) (r : AuditRequest) (st : SysState)
    (hv : pydanticValid r = true) (hid : idOk r = true) :
    create_audit jid r st =
      (.ok { job_id := jid
             status := "queued"
             message := "Audit job created with "
               ++ toString (r.checks.map (mkTask jid r)).length ++ " tasks"
             queue_position := some (laneLen
               ((r.checks.map (mkTask jid r)).foldl
                 (fun q t => pushLane q r.priority t) st.queues)
               r.priority) },
       { st with
         jobs := setJobStatus (st.jobs ++ [jobRowOf jid r]) jid "queued"
         queues := (r.checks.map (mkTask jid r)).foldl
           (fun q t => pushLane q r.priority t) st.queues }) := by
  obtain ⟨h1, h2, h3⟩ := idOk_split r hid
  simp only [create_audit, hv, h1, h2, h3, Bool.not_true, Bool.false_eq_true,
    if_false]

/-! Claim theorems. -/

/-- C7: a claim attempt scans the lanes in the fixed order high, medium,
low — if the high lane is non-empty it returns exactly the head of the high
lane (never an element of medium or low); with high empty it returns the
head of medium; with high and medium empty, the head of low; and it
returns `none` precisely when all three lanes are empty. -/
theorem c7_claim_priority_order (q : Queues) :
    (∀ t rest, q.high = t :: rest →
      claim q = some (t, { q with high := rest }))
    ∧ (q.high = [] → ∀ t rest, q.medium = t :: rest →
      claim q = some (t, { q with medium := rest }))
    ∧ (q.high = [] → q.medium = [] → ∀ t rest, q.low = t :: rest →
      claim q = some (t, { q with low := rest }))
    ∧ (claim q = none ↔ q.high = [] ∧ q.medium = [] ∧ q.low = []) := by
  obtain ⟨h, m, l⟩ := q
  cases h <;> cases m <;> cases l <;> simp_all [claim]

/-- Witness for C7 at a concrete queue: with the high lane non-empty and
the medium lane non-empty, the claim returns the high head. -/
theorem c7_claim_priority_order_witness :
    claim { high := [sampleTask "security"], medium := [sampleTask "cost"],
            low := [] }
      = some (sampleTask "security",
          { high := [], medium := [sampleTask "cost"], low := [] }) := by
  exact (c7_claim_priority_order
    { high := [sampleTask "security"], medium := [sampleTask "cost"],
      low := [] }).1 (sampleTask "security") [] rfl

/-- C2 counterexample: the claim predicts FIFO order within a lane, but the
gate enqueues with `lpush` and the worker claims with `lpop`, so a lane is
a stack.  For Scenario A (checks ["security", "compliance"] at priority
high, submitted to an empty system) the "security" envelope is enqueued
first, yet the high lane holds the "compliance" envelope at its head and
the first claim returns "compliance", not "security". -/
theorem c2_fifo_counterexample :
    scenarioState.queues.high
      = [mkTask "audit_0a1b2c3d" scenarioReq "compliance",
         mkTask "audit_0a1b2c3d" scenarioReq "security"]
    ∧ (claim scenarioState.queues).map Prod.fst
      = some (mkTask "audit_0a1b2c3d" scenarioReq "compliance")
    ∧ mkTask "audit_0a1b2c3d" scenarioReq "compliance"
      ≠ mkTask "audit_0a1b2c3d" scenarioReq "security" := by
  refine ⟨rfl, rfl, ?_⟩
  decide

/-- C2 amended: delivery order within a lane is LIFO, not FIFO.  If the
submission gate enqueues envelope A before envelope B into the same lane
and no other enqueues or claims intervene, the lane holds B before A, so a
worker's claim returns B before A; in particular, for Scenario A the two
tasks sit at the head of the high lane in reverse submission order and the
first two claims return "compliance" then "security". -/
theorem c2_amended_lane_lifo :
    (∀ (q : Queues) (p : String) (A B : Task),
      p = "high" ∨ p = "medium" ∨ p = "low" →
      laneOf (pushLane (pushLane q p A) p B) p = B :: A :: laneOf q p)
    ∧ (claim scenarioState.queues).map Prod.fst
      = some (mkTask "audit_0a1b2c3d" scenarioReq "compliance")
    ∧ ((claim scenarioState.queues).bind fun pr =>
        (claim pr.2).map Prod.fst)
      = some (mkTask "audit_0a1b2c3d" scenarioReq "security") := by
  refine ⟨?_, rfl, rfl⟩
  intro q p A B hp
  rw [laneOf_pushLane_same _ p B hp, laneOf_pushLane_same q p A hp]

/-- Witness for C2 amended: pushing the "security" then the "compliance"
sample task onto the high lane of an empty queue leaves the lane holding
["compliance", "security"]. -/
theorem c2_amended_lane_lifo_witness :
    laneOf (pushLane (pushLane {} "high" (sampleTask "security"))
        "high" (sampleTask "compliance")) "high"
      = [sampleTask "compliance", sampleTask "security"] :=
  c2_amended_lane_lifo.1 {} "high" (sampleTask "security")
    (sampleTask "compliance") (Or.inl rfl)

/-- Request used to refute C5: the checks field presents the same check
type twice. -/
def dupReq : AuditRequest :=
  { cloud_provider := "aws"
    account_id := some "acct-1"
    checks := ["security", "security"]
    priority := "low" }

/-- C5 counterexample: a request presenting the checks list
["security", "security"] has one distinct check type, yet `create_audit`
enqueues two tasks into the low lane — the fan-out iterates over the list
as given and never deduplicates, so the number of enqueued tasks is not
the number of distinct check types. -/
theorem c5_distinct_counterexample :
    laneLen (create_audit "audit_dd00ee11" dupReq {}).2.queues "low" = 2
    ∧ dupReq.checks.dedup.length = 1
    ∧ laneLen (create_audit "audit_dd00ee11" dupReq {}).2.queues "low"
      ≠ dupReq.checks.dedup.length := by
  refine ⟨rfl, by decide, by decide⟩

/-- C5 amended: for every valid submitted job, exactly `checks.length`
tasks are enqueued — one per element of the checks list as presented, so
duplicate check types yield duplicate tasks — all appended (by `lpush`)
to the lane matching the job's priority, the other lanes unchanged. -/
theorem c5_amended_fanout (jid : String) (r : AuditRequest) (st : SysState)
    (hv : pydanticValid r = true) (hid : idOk r = true)
    (hp : r.priority = "high" ∨ r.priority = "medium"
      ∨ r.priority = "low") :
    laneOf (create_audit jid r st).2.queues r.priority
      = (r.checks.map (mkTask jid r)).reverse ++ laneOf st.queues r.priority
    ∧ laneLen (create_audit jid r st).2.queues r.priority
      = r.checks.length + laneLen st.queues r.priority
    ∧ (∀ p, (p = "high" ∨ p = "medium" ∨ p = "low") → p ≠ r.priority →
      laneOf (create_audit jid r st).2.queues p = laneOf st.queues p) := by
  rw [create_audit_eq_ok jid r st hv hid]
  refine ⟨laneOf_foldl_pushLane_same _ _ _ hp, ?_, ?_⟩
  · show laneLen _ _ = _
    rw [laneLen, laneOf_foldl_pushLane_same _ _ _ hp]
    simp [laneLen]
  · intro p hpv hne
    exact laneOf_foldl_pushLane_other _ _ _ _ hp hpv hne

/-- Witness for C5 amended, at Scenario A: both tasks land in the high
lane (two tasks for two checks), and the medium and low lanes stay
empty. -/
theorem c5_amended_fanout_witness :
    laneOf (create_audit "audit_0a1b2c3d" scenarioReq {}).2.queues "high"
      = [mkTask "audit_0a1b2c3d" scenarioReq "compliance",
         mkTask "audit_0a1b2c3d" scenarioReq "security"]
    ∧ laneLen (create_audit "audit_0a1b2c3d" scenarioReq {}).2.queues "high"
      = 2
    ∧ laneOf (create_audit "audit_0a1b2c3d" scenarioReq {}).2.queues
        "medium" = [] := by
  have h := c5_amended_fanout "audit_0a1b2c3d" scenarioReq {}
    (by decide) (by decide) (Or.inl rfl)
  exact ⟨h.1, h.2.1, h.2.2 "medium" (Or.inr (Or.inl rfl)) (by decide)⟩

/-- C8: a submission naming provider azure without a subscription id (and
likewise aws without an account id, gcp without a project id) is rejected
with a 400 before any write: `create_audit` returns the validation error
and the returned state is exactly the input state — no job row persisted,
no task enqueued, queues and store unchanged. -/
theorem c8_missing_id_rejected (jid : String) (r : AuditRequest)
    (st : SysState) (hv : pydanticValid r = true) :
    (r.cloud_provider = "azure" → truthy r.subscription_id = false →
      create_audit jid r st
        = (.error ⟨400, "subscription_id required for Azure"⟩, st))
    ∧ (r.cloud_provider = "aws" → truthy r.account_id = false →
      create_audit jid r st
        = (.error ⟨400, "account_id required for AWS"⟩, st))
    ∧ (r.cloud_provider = "gcp" → truthy r.project_id = false →
      create_audit jid r st
        = (.error ⟨400, "project_id required for GCP"⟩, st)) := by
  refine ⟨fun hcp hid => ?_, fun hcp hid => ?_, fun hcp hid => ?_⟩ <;>
    simp [create_audit, hv, hcp, hid]

/-- Witness for C8: an azure request with no subscription id against the
empty system is rejected with the 400 and the state is unchanged. -/
theorem c8_missing_id_rejected_witness :
    create_audit "audit_9f9f9f9f" { cloud_provider := "azure" } {}
      = (.error ⟨400, "subscription_id required for Azure"⟩, {}) :=
  (c8_missing_id_rejected "audit_9f9f9f9f" { cloud_provider := "azure" } {}
    (by decide)).1 rfl rfl

/-- C6: when the scanner invocation for a claimed task fails with any
error, the worker converts it into exactly one synthetic finding of
severity high whose description mentions the failure, completes the
iteration normally (stores that single finding, bumps its metric counter —
no fatal propagation), and still writes the Processed Marker for the
task's (job id, check type). -/
theorem c6_scanner_failure_contained
    (scan : Task → Except String (List Finding)) (wid : String) (now : Nat)
    (st : SysState) (t : Task) (q' : Queues) (e : String)
    (hprov : t.cloud_provider = "azure" ∨ t.cloud_provider = "aws"
      ∨ t.cloud_provider = "gcp")
    (hscan : scan t = .error e)
    (hclaim : claim st.queues = some (t, q')) :
    process_task scan t = [syntheticFinding t e]
    ∧ (syntheticFinding t e).severity = "high"
    ∧ (∃ pre, (syntheticFinding t e).description = pre ++ e)
    ∧ workerStep scan wid now st =
      { st with
        queues := q'
        redisFindings :=
          { finding := syntheticFinding t e, job_id := t.job_id,
            worker_id := wid, processed_at := now } :: st.redisFindings
        processed := (t.job_id, t.check_type) :: st.processed
        workerMetrics := bumpMetric st.workerMetrics wid } := by
  have hpt : process_task scan t = [syntheticFinding t e] := by
    rcases hprov with h | h | h <;> simp [process_task, h, hscan]
  refine ⟨hpt, rfl, ⟨"Audit failed: ", rfl⟩, ?_⟩
  unfold workerStep
  rw [hclaim]
  simp [hpt]

/-- Witness for C6: a scanner that always raises, on a one-task high lane:
the single synthetic high finding is stored and the marker is written. -/
theorem c6_scanner_failure_contained_witness :
    workerStep (fun _ => .error "boom") "worker_w" 7
        { queues := { high := [sampleTask "security"] } }
      = { queues := {}
          redisFindings :=
            [{ finding := syntheticFinding (sampleTask "security") "boom",
               job_id := "audit_0a1b2c3d", worker_id := "worker_w",
               processed_at := 7 }]
          processed := [("audit_0a1b2c3d", "security")]
          workerMetrics := [("worker_w", 1)] } := by
  have h := c6_scanner_failure_contained (fun _ => .error "boom")
    "worker_w" 7 { queues := { high := [sampleTask "security"] } }
    (sampleTask "security") {} "boom" (Or.inl rfl) rfl rfl
  exact h.2.2.2

/-! Conservation of queue elements under interleaved atomic operations. -/

lemma qCount_pushLane (x t : Task) (q : Queues) (p : String)
    (hp : p = "high" ∨ p = "medium" ∨ p = "low") :
    qCount x (pushLane q p t) = qCount x q + (if x = t then 1 else 0) := by
  rcases hp with h | h | h <;> subst h <;> by_cases hxt : x = t <;>
    simp [qCount, pushLane, List.count_cons, hxt] <;> omega

lemma qCount_claim (x t : Task) (q q' : Queues)
    (h : claim q = some (t, q')) :
    qCount x q = qCount x q' + (if x = t then 1 else 0) := by
  obtain ⟨hl, ml, ll⟩ := q
  cases hl with
  | cons a rest =>
    simp only [claim, Option.some.injEq, Prod.mk.injEq] at h
    obtain ⟨rfl, rfl⟩ := h
    by_cases hxt : x = a <;>
      simp [qCount, List.count_cons, hxt] <;> omega
  | nil =>
    cases ml with
    | cons a rest =>
      simp only [claim, Option.some.injEq, Prod.mk.injEq] at h
      obtain ⟨rfl, rfl⟩ := h
      by_cases hxt : x = a <;>
        simp [qCount, List.count_cons, hxt] <;> omega
    | nil =>
      cases ll with
      | cons a rest =>
        simp only [claim, Option.some.injEq, Prod.mk.injEq] at h
        obtain ⟨rfl, rfl⟩ := h
        by_cases hxt : x = a <;>
          simp [qCount, List.count_cons, hxt] <;> omega
      | nil => simp [claim] at h

lemma runOps_conservation (ops : List QOp) :
    ∀ q : Queues, opsValid ops → ∀ x : Task,
      ((runOps q ops).2.map Prod.snd).count x + qCount x (runOps q ops).1
        = qCount x q + (enqueuedOf ops).count x := by
  induction ops with
  | nil => intro q _ x; simp [runOps, enqueuedOf]
  | cons op rest ih =>
    intro q hv x
    cases op with
    | enq p t =>
      obtain ⟨hp, hrest⟩ := hv
      have h := ih (pushLane q p t) hrest x
      have hc := qCount_pushLane x t q p hp
      have hcc : (enqueuedOf (QOp.enq p t :: rest)).count x
          = (enqueuedOf rest).count x + (if x = t then 1 else 0) := by
        by_cases hxt : x = t <;> simp [enqueuedOf, List.count_cons, hxt]
      have hr : runOps q (QOp.enq p t :: rest)
          = runOps (pushLane q p t) rest := rfl
      rw [hr, hcc]
      omega
    | claimOp w =>
      cases hc : claim q with
      | none =>
        have h := ih q hv x
        simp only [runOps, hc, enqueuedOf] at h ⊢
        exact h
      | some pr =>
        obtain ⟨t, q'⟩ := pr
        have h := ih q' hv x
        have hq := qCount_claim x t q q' hc
        have hcc : (((w, t) :: (runOps q' rest).2).map Prod.snd).count x
            = ((runOps q' rest).2.map Prod.snd).count x
              + (if x = t then 1 else 0) := by
          by_cases hxt : x = t <;> simp [List.count_cons, hxt]
        simp only [runOps, hc, enqueuedOf]
        rw [hcc]
        omega

lemma qCount_allTasks (x : Task) (q : Queues) :
    qCount x q = (allTasks q).count x := by
  simp [qCount, allTasks, List.count_append, Nat.add_assoc]

/-- C9: under interleaved atomic queue operations — enqueues by the gate
and concurrent claim attempts by any number of workers — no two claim calls
ever receive the same queue element: if the elements placed in the lanes
are pairwise distinct, the list of delivered (worker, task) claims contains
each task at most once. -/
theorem c9_no_duplicate_delivery (q : Queues) (ops : List QOp)
    (hv : opsValid ops)
    (hnd : (allTasks q ++ enqueuedOf ops).Nodup) :
    ((runOps q ops).2.map Prod.snd).Nodup := by
  rw [List.nodup_iff_count_le_one] at hnd ⊢
  intro x
  have h := runOps_conservation ops q hv x
  have hb := hnd x
  rw [List.count_append] at hb
  rw [qCount_allTasks x q] at h
  omega

/-- Witness for C9: two tasks enqueued into different lanes, then two
workers each claim once; each worker receives a different element. -/
theorem c9_no_duplicate_delivery_witness :
    ((runOps {} [.enq "high" (sampleTask "security"),
        .enq "medium" (sampleTask "cost"),
        .claimOp "worker_1", .claimOp "worker_2"]).2.map Prod.snd).Nodup :=
  c9_no_duplicate_delivery {} _
    ⟨Or.inl rfl, Or.inr (Or.inl rfl), trivial⟩ (by decide)

/-! Worker steps only consume tasks already in the lanes, so a job id that
never had a task enqueued never acquires a Processed Marker. -/

lemma claim_tasks_sub (q : Queues) (t : Task) (q' : Queues)
    (h : claim q = some (t, q')) :
    t ∈ allTasks q ∧ ∀ x ∈ allTasks q', x ∈ allTasks q := by
  obtain ⟨hl, ml, ll⟩ := q
  cases hl with
  | cons a rest =>
    simp only [claim, Option.some.injEq, Prod.mk.injEq] at h
    obtain ⟨rfl, rfl⟩ := h
    constructor
    · simp [allTasks]
    · intro x hx
      simp only [allTasks, List.mem_append, List.mem_cons] at hx ⊢
      tauto
  | nil =>
    cases ml with
    | cons a rest =>
      simp only [claim, Option.some.injEq, Prod.mk.injEq] at h
      obtain ⟨rfl, rfl⟩ := h
      constructor
      · simp [allTasks]
      · intro x hx
        simp only [allTasks, List.mem_append, List.mem_cons] at hx ⊢
        tauto
    | nil =>
      cases ll with
      | cons a rest =>
        simp only [claim, Option.some.injEq, Prod.mk.injEq] at h
        obtain ⟨rfl, rfl⟩ := h
        constructor
        · simp [allTasks]
        · intro x hx
          simp only [allTasks, List.mem_append, List.mem_cons] at hx ⊢
          tauto
      | nil => simp [claim] at h

lemma workerStep_no_marker
    (scan : Task → Except String (List Finding)) (wid : String) (now : Nat)
    (st : SysState) (jid : String)
    (hq : ∀ t ∈ allTasks st.queues, t.job_id ≠ jid)
    (hm : ∀ c, (jid, c) ∉ st.processed) :
    (∀ t ∈ allTasks (workerStep scan wid now st).queues, t.job_id ≠ jid)
    ∧ (∀ c, (jid, c) ∉ (workerStep scan wid now st).processed) := by
  unfold workerStep
  cases hc : claim st.queues with
  | none => exact ⟨hq, hm⟩
  | some pr =>
    obtain ⟨t, q'⟩ := pr
    obtain ⟨hmem, hsub⟩ := claim_tasks_sub st.queues t q' hc
    refine ⟨fun x hx => hq x (hsub x hx), fun c hcmem => ?_⟩
    simp only [List.mem_cons] at hcmem
    rcases hcmem with heq | hold
    · exact hq t hmem (congrArg Prod.fst heq).symm
    · exact hm c hold

lemma runWorker_no_marker (steps : List WStep) :
    ∀ (st : SysState) (jid : String),
      (∀ t ∈ allTasks st.queues, t.job_id ≠ jid) →
      (∀ c, (jid, c) ∉ st.processed) →
      ∀ c, (jid, c) ∉ (runWorker steps st).processed := by
  induction steps with
  | nil => intro st jid _ hm c; exact hm c
  | cons s rest ih =>
    intro st jid hq hm c
    obtain ⟨hq', hm'⟩ := workerStep_no_marker s.scan s.wid s.now st jid hq hm
    exact ih (workerStep s.scan s.wid s.now st) jid hq' hm' c

lemma find_setJobStatus (jid : String) (l : List JobRow)
    (hex : ∃ j ∈ l, j.job_id = jid) :
    ((setJobStatus l jid "queued").find?
      (fun j => j.job_id == jid)).map JobRow.status = some "queued" := by
  induction l with
  | nil => simp at hex
  | cons j rest ih =>
    by_cases h : j.job_id = jid
    · have hset : setJobStatus (j :: rest) jid "queued"
          = ({ j with status := "queued" }) :: setJobStatus rest jid
              "queued" := by
        simp [setJobStatus, h]
      rw [hset, List.find?_cons_of_pos]
      · rfl
      · simpa using h
    · have hset : setJobStatus (j :: rest) jid "queued"
          = j :: setJobStatus rest jid "queued" := by
        simp [setJobStatus, h]
      rw [hset, List.find?_cons_of_neg]
      · apply ih
        rcases hex with ⟨a, ha, haid⟩
        rcases List.mem_cons.mp ha with rfl | hmem
        · exact absurd haid h
        · exact ⟨a, hmem, haid⟩
      · simpa using h

lemma jobStatus_after_queued (jobs : List JobRow) (jid : String)
    (r : AuditRequest) :
    ((setJobStatus (jobs ++ [jobRowOf jid r]) jid "queued").find?
      (fun j => j.job_id == jid)).map JobRow.status = some "queued" :=
  find_setJobStatus jid (jobs ++ [jobRowOf jid r])
    ⟨jobRowOf jid r, by simp, rfl⟩

/-- C10: a valid submission whose checks list is empty raises no validation
error — `create_audit` persists the job row, enqueues zero tasks (the
queues of the returned state equal the input queues), sets the job status
to queued, and returns a success response whose message reports 0 tasks;
and if no task for that job id sits in the lanes and no marker for it
exists, no sequence of worker iterations ever produces a Processed Marker
for that job id. -/
theorem c10_empty_checks_job (jid : String) (r : AuditRequest)
    (st : SysState) (hv : pydanticValid r = true) (hid : idOk r = true)
    (hc : r.checks = []) :
    (create_audit jid r st).1
      = .ok { job_id := jid
              status := "queued"
              message := "Audit job created with 0 tasks"
              queue_position := some (laneLen st.queues r.priority) }
    ∧ (create_audit jid r st).2.queues = st.queues
    ∧ jobStatus (create_audit jid r st).2 jid = some "queued"
    ∧ ∀ steps : List WStep,
        (∀ t ∈ allTasks st.queues, t.job_id ≠ jid) →
        (∀ c, (jid, c) ∉ st.processed) →
        ∀ c, (jid, c)
          ∉ SysState.processed (runWorker steps (create_audit jid r st).2)
    := by
  rw [create_audit_eq_ok jid r st hv hid, hc]
  have htos : toString (0 : Nat) = "0" := by decide
  have hmsg : "Audit job created with " ++ "0" ++ " tasks"
      = "Audit job created with 0 tasks" := by decide
  refine ⟨?_, rfl, jobStatus_after_queued st.jobs jid r, ?_⟩
  · simp only [List.map_nil, List.length_nil, List.foldl_nil, htos, hmsg]
  · intro steps hq hm c
    refine runWorker_no_marker steps _ jid ?_ ?_ c
    · exact hq
    · exact hm

/-- Witness for C10: an azure submission with an explicitly empty checks
list against the empty system succeeds with a 0-task message, leaves the
lanes empty, and one worker iteration later there is still no marker for
the job. -/
theorem c10_empty_checks_job_witness :
    (create_audit "audit_77777777"
        { cloud_provider := "azure", subscription_id := some "sub-1",
          checks := [] } {}).1
      = .ok { job_id := "audit_77777777"
              status := "queued"
              message := "Audit job created with 0 tasks"
              queue_position := some 0 }
    ∧ ("audit_77777777", "security")
      ∉ (runWorker [⟨sampleScan, "worker_z", 3⟩]
          (create_audit "audit_77777777"
            { cloud_provider := "azure", subscription_id := some "sub-1",
              checks := [] } {}).2).processed := by
  have h := c10_empty_checks_job "audit_77777777"
    { cloud_provider := "azure", subscription_id := some "sub-1",
      checks := [] } {} (by decide) (by decide) rfl
  exact ⟨h.1, h.2.2.2 [⟨sampleScan, "worker_z", 3⟩]
    (by intro t ht; simp [allTasks] at ht) (by intro c hc; simp at hc)
    "security"⟩

/-! Scenario for the completion-tracking and findings-store checks: an
azure job with the single check "security", submitted to the empty system
and fully processed by one worker whose scanner succeeds. -/

def c1req : AuditRequest :=
  { cloud_provider := "azure"
    subscription_id := some "sub-1"
    checks := ["security"]
    priority := "high" }

def c1afterSubmit : SysState := (create_audit "audit_c1000001" c1req {}).2

/-- The state after the worker has processed the job's only task and the
orchestrator's background processor has run an iteration. -/
def c1final : SysState :=
  process_audit_tasks_iter
    (workerStep sampleScan "worker_1_1700000000" 42 c1afterSubmit)

/-- C1 (code bug): after every requested check of the job has its Processed
Marker, the job status is still `queued` — the background processor
`process_audit_tasks` is an inert sleep loop (the identity on the state)
and neither it nor the worker ever performs the `processing` or `completed`
transition, so `completed` is not reached even though every requested check
type has a marker. -/
theorem c1_completion_never_reached :
    c1final.processed = [("audit_c1000001", "security")]
    ∧ c1req.checks = ["security"]
    ∧ process_audit_tasks_iter c1final = c1final
    ∧ jobStatus c1final "audit_c1000001" = some "queued"
    ∧ "queued" ≠ "completed" := by
  exact ⟨rfl, rfl, rfl, rfl, by decide⟩

/-- A redelivered envelope scenario for the idempotency check: the marker
for (job, check) exists and one finding set is already durably stored, and
the same (job, check) envelope is delivered again. -/
def c3req : AuditRequest :=
  { cloud_provider := "azure"
    subscription_id := some "sub-9"
    checks := ["security"]
    priority := "high" }

def c3task : Task := mkTask "audit_c3000001" c3req "security"

def c3pre : SysState :=
  { queues := { high := [c3task] }
    redisFindings := [{ finding := sampleFinding "security",
                        job_id := "audit_c3000001",
                        worker_id := "worker_a", processed_at := 10 }]
    processed := [("audit_c3000001", "security")] }

def c3post : SysState := workerStep sampleScan "worker_b" 20 c3pre

/-- C3 (code bug): the worker loop never consults the Processed Marker —
claiming a redelivered task for a (job id, check type) pair that already
has a marker appends a second set of findings for that check (the Redis
findings list for the job grows from one to two entries). -/
theorem c3_marker_not_consulted :
    ("audit_c3000001", "security") ∈ c3pre.processed
    ∧ (redisFindingsOf c3pre "audit_c3000001").length = 1
    ∧ (redisFindingsOf c3post "audit_c3000001").length = 2 := by
  exact ⟨by decide, rfl, rfl⟩

/-- C4 (code bug): the worker tags each finding with the job id, the worker
id and a processing timestamp and appends it — but to the Redis list
`findings:{job_id}`, while the findings query endpoint reads the PostgreSQL
`audit_findings` table, which no component ever writes: after the job's
task is fully processed, the worker-side findings list holds the tagged
finding, yet `get_job_findings` returns the empty list. -/
theorem c4_findings_invisible_to_queries :
    redisFindingsOf c1final "audit_c1000001"
      = [{ finding := sampleFinding "security"
           job_id := "audit_c1000001"
           worker_id := "worker_1_1700000000"
           processed_at := 42 }]
    ∧ get_job_findings c1final "audit_c1000001" none = .ok []
    ∧ c1final.pgFindings = [] := by
  exact ⟨rfl, rfl, rfl⟩

end Auditor
